import Mathlib

/-!
Verification of the Lantern device-control core (discovery, capability model,
UPnP and Roku adapters) and the Wi-Fi QR builder, as a shallow embedding of
the Python source in `src/lantern/services/`.

Conventions of the embedding:
* Python dynamic values that flow through `Parameter.validate` and `**kwargs`
  are modelled by `PyValue` (`None`, `int`, `bool`, `float`, `str`); Python
  floats are modelled by `Rat`, which is exact for every comparison the code
  performs (no float arithmetic occurs in the modelled paths).
* Python dicts are modelled as insertion-ordered association lists; updating
  an existing key keeps its position, a new key is appended (CPython dict
  semantics).
* A Python function that may raise is modelled with `Except String`, where
  the error carries the exception text; a `try/except` block is modelled by
  matching on the `Except`.
* Network transports (urllib/socket calls and the stdlib XML parses applied
  directly to their payloads) are oracles: a record of functions giving the
  parsed outcome of each wire interaction, with `.error` modelling a raised
  exception.  Requests sent to the wire are accumulated in a `log` field so
  that theorems can speak about what was dispatched.
-/

namespace Lantern

/-- Model of the Python values handled by `Parameter.validate` and passed as
keyword arguments: `None`, `int`, `bool`, `float` (modelled exactly as `Rat`),
and `str`.  `bool` is kept separate from `int` even though Python's `bool`
subclasses `int`; the `isinstance` helpers below encode the subclassing. -/
inductive PyValue where
  | none
  | int (n : Int)
  | bool (b : Bool)
  | float (q : Rat)
  | str (s : String)
deriving DecidableEq

/-- `isinstance(v, int)` — true for `int` and `bool` (Python `bool` ⊂ `int`). -/
def pyIsInt : PyValue → Bool
  | .int _ => true
  | .bool _ => true
  | _ => false

/-- `isinstance(v, bool)`. -/
def pyIsBool : PyValue → Bool
  | .bool _ => true
  | _ => false

/-- `isinstance(v, (int, float))` — true for `int`, `bool` and `float`. -/
def pyIsNumber : PyValue → Bool
  | .int _ => true
  | .bool _ => true
  | .float _ => true
  | _ => false

/-- `isinstance(v, str)`. -/
def pyIsStr : PyValue → Bool
  | .str _ => true
  | _ => false

/-- Numeric content of a value that passed an `isinstance(v, (int, float))`
check (`bool` counts as 0/1).  Returns 0 on non-numbers (unreachable in the
branches where it is used). -/
def pyNumVal : PyValue → Rat
  | .int n => (n : Rat)
  | .bool b => if b then 1 else 0
  | .float q => q
  | _ => 0

/-- Python truthiness: `None`, `0`, `0.0`, `False` and `""` are falsy. -/
def pyTruthy : PyValue → Bool
  | .none => false
  | .int n => n != 0
  | .bool b => b
  | .float q => q != 0
  | .str s => s != ""

/-- `v < m` for an integer bound `m`, raising `TypeError` when `v` is a
string or `None` (Python refuses to order them against a number). -/
def pyLtInt : PyValue → Int → Except String Bool
  | .int n, m => .ok (decide (n < m))
  | .bool b, m => .ok (decide ((if b then (1 : Int) else 0) < m))
  | .float q, m => .ok (decide (q < (m : Rat)))
  | _, _ => .error "TypeError"

/-- `v > m` for an integer bound `m`, raising `TypeError` as in `pyLtInt`. -/
def pyGtInt : PyValue → Int → Except String Bool
  | .int n, m => .ok (decide (n > m))
  | .bool b, m => .ok (decide ((if b then (1 : Int) else 0) > m))
  | .float q, m => .ok (decide (q > (m : Rat)))
  | _, _ => .error "TypeError"

/-- `v in choices` for a list of strings: only a `str` can equal a `str`
(Python `==` across these types is `False`, never an error). -/
def pyInList (v : PyValue) (cs : List String) : Bool :=
  match v with
  | .str s => cs.contains s
  | _ => false

/-- Digit-string parse backing `int(str)`: optional surrounding whitespace,
optional sign, at least one digit. -/
def pyIntParse (s : String) : Except String Int :=
  let t := ((s.data.dropWhile Char.isWhitespace).reverse.dropWhile Char.isWhitespace).reverse
  let (sign, digits) : Int × List Char :=
    match t with
    | '-' :: ds => (-1, ds)
    | '+' :: ds => (1, ds)
    | ds => (1, ds)
  if digits ≠ [] ∧ digits.all Char.isDigit then
    .ok (sign * (digits.foldl (fun acc c => acc * 10 + (c.toNat - 48)) 0 : Nat))
  else .error ("ValueError: invalid literal for int: " ++ s)

/-- `int(v)`: identity on `int`, 0/1 on `bool`, truncation toward zero on
`float`, digit parse on `str` (raising `ValueError` on a malformed literal),
`TypeError` on `None`. -/
def pyToInt : PyValue → Except String Int
  | .int n => .ok n
  | .bool b => .ok (if b then 1 else 0)
  | .float q => .ok (if q < 0 then -((-q).floor) else q.floor)
  | .str s => pyIntParse s
  | .none => .error "TypeError: int of None"

/-- Rendering of a `PyValue` by `str()` / an f-string (used only in error
messages). -/
def pyStr : PyValue → String
  | .none => "None"
  | .int n => toString n
  | .bool b => if b then "True" else "False"
  | .float q => toString q
  | .str s => s

end Lantern

namespace Lantern

/-! ### Character-list string utilities (structural, kernel-reducible) -/

/-- Strip the literal pattern `pat` from the front of `l`, returning the
remainder on success. -/
def stripLit : List Char → List Char → Option (List Char)
  | [], l => some l
  | _ :: _, [] => Option.none
  | p :: ps, c :: cs => if p = c then stripLit ps cs else Option.none

/-- Case-insensitive variant of `stripLit`. -/
def stripLitCI : List Char → List Char → Option (List Char)
  | [], l => some l
  | _ :: _, [] => Option.none
  | p :: ps, c :: cs => if p.toLower = c.toLower then stripLitCI ps cs else Option.none

/-- Does `needle` occur inside `hay` (Python `needle in hay`)?  The empty
needle matches everywhere. -/
def containsFrom (needle : List Char) : List Char → Bool
  | [] => (stripLit needle []).isSome
  | c :: cs => (stripLit needle (c :: cs)).isSome || containsFrom needle cs

/-- Python `needle in hay` on strings. -/
def strContains (hay needle : String) : Bool :=
  containsFrom needle.data hay.data

/-- Python `hay.startswith(pre)`. -/
def strStarts (hay pre : String) : Bool :=
  (stripLit pre.data hay.data).isSome

/-- One pass of Python `str.replace`, fuelled by the original length so the
recursion is structural (the patterns used in this development are never
empty, and the fuel is always sufficient). -/
def replaceFuel (pat rep : List Char) : Nat → List Char → List Char
  | _, [] => []
  | 0, l => l
  | fuel + 1, c :: cs =>
    match stripLit pat (c :: cs) with
    | some rest => rep ++ replaceFuel pat rep fuel rest
    | Option.none => c :: replaceFuel pat rep fuel cs

/-- Python `s.replace(pat, rep)` (all occurrences, left to right,
non-overlapping). -/
def strReplace (s pat rep : String) : String :=
  String.mk (replaceFuel pat.data rep.data s.data.length s.data)

/-- Python `s.lower()` (ASCII). -/
def pyLower (s : String) : String := String.mk (s.data.map Char.toLower)

/-- Python `s.upper()` (ASCII). -/
def pyUpper (s : String) : String := String.mk (s.data.map Char.toUpper)

/-- Helper for `pyTitle`: the flag records whether the previous character was
alphabetic. -/
def pyTitleGo : Bool → List Char → List Char
  | _, [] => []
  | prevAlpha, c :: cs =>
    (if c.isAlpha then (if prevAlpha then c.toLower else c.toUpper) else c) ::
      pyTitleGo c.isAlpha cs

/-- Python `s.title()` (ASCII): first letter of every word upper-cased, the
rest lower-cased. -/
def pyTitle (s : String) : String := String.mk (pyTitleGo false s.data)

/-! ### Insertion-ordered dictionaries as association lists -/

/-- `m.get(k)` on a Python dict modelled as an insertion-ordered list. -/
def dGet {α : Type} (m : List (String × α)) (k : String) : Option α :=
  (m.find? (fun p => p.1 == k)).map (·.2)

/-- `k in m` on a Python dict. -/
def dHas {α : Type} (m : List (String × α)) (k : String) : Bool :=
  m.any (fun p => p.1 == k)

/-- `m[k] = v` on a Python dict: updating an existing key keeps its position,
a new key is appended. -/
def dSet {α : Type} (m : List (String × α)) (k : String) (v : α) : List (String × α) :=
  if m.any (fun p => p.1 == k) then m.map (fun p => if p.1 == k then (k, v) else p)
  else m ++ [(k, v)]

/-- `kwargs.get(k, dflt)`. -/
def kwGet (kw : List (String × PyValue)) (k : String) (dflt : PyValue) : PyValue :=
  (dGet kw k).getD dflt

/-! ### Capability / Parameter model (`services/control/base.py`) -/

/-- `ParameterType`: the closed enumeration of parameter kinds. -/
inductive ParameterType where
  | INTEGER
  | FLOAT
  | STRING
  | BOOLEAN
  | ENUM
  | PERCENTAGE
  | VOLUME
deriving DecidableEq

/-- The `.value` string of each `ParameterType` member. -/
def ParameterType.value : ParameterType → String
  | .INTEGER => "integer"
  | .FLOAT => "float"
  | .STRING => "string"
  | .BOOLEAN => "boolean"
  | .ENUM => "enum"
  | .PERCENTAGE => "percentage"
  | .VOLUME => "volume"

/-- `Parameter` dataclass.  The numeric `min_value`/`max_value`/`step`
constraints are modelled as integers: every bound written in the source is an
integer literal.  `default` is an arbitrary Python value (`None` by default). -/
structure Parameter where
  name : String
  param_type : ParameterType
  description : String := ""
  required : Bool := false
  default : PyValue := .none
  min_value : Option Int := Option.none
  max_value : Option Int := Option.none
  choices : Option (List String) := Option.none
  step : Option Int := Option.none
deriving DecidableEq

/-- The `max_value` check of `Parameter.validate` (the part after the
`min_value` check). -/
def checkMax (p : Parameter) (v : PyValue) : Except String (Bool × Option String) :=
  match p.max_value with
  | some m =>
    match pyGtInt v m with
    | .error e => .error e
    | .ok true => .ok (false, some ("'" ++ p.name ++ "' must be <= " ++ toString m))
    | .ok false => .ok (true, Option.none)
  | Option.none => .ok (true, Option.none)

/-- The range-check phase of `Parameter.validate`: `min_value` then
`max_value`, each comparison able to raise `TypeError`. -/
def checkRange (p : Parameter) (v : PyValue) : Except String (Bool × Option String) :=
  match p.min_value with
  | some m =>
    match pyLtInt v m with
    | .error e => .error e
    | .ok true => .ok (false, some ("'" ++ p.name ++ "' must be >= " ++ toString m))
    | .ok false => checkMax p v
  | Option.none => checkMax p v

/-- The type-check phase of `Parameter.validate`: the `if/elif` chain over
`param_type`, returning the first failing message.  The `ENUM` branch fires
only when `choices` is truthy (non-`None` and non-empty). -/
def checkType (p : Parameter) (v : PyValue) : Option String :=
  match p.param_type with
  | .INTEGER => if pyIsInt v then Option.none else some ("Expected integer for '" ++ p.name ++ "'")
  | .FLOAT => if pyIsNumber v then Option.none else some ("Expected number for '" ++ p.name ++ "'")
  | .BOOLEAN => if pyIsBool v then Option.none else some ("Expected boolean for '" ++ p.name ++ "'")
  | .STRING => if pyIsStr v then Option.none else some ("Expected string for '" ++ p.name ++ "'")
  | .PERCENTAGE =>
    if ¬ pyIsNumber v then some ("Expected number for '" ++ p.name ++ "'")
    else if pyNumVal v < 0 ∨ pyNumVal v > 100 then
      some ("'" ++ p.name ++ "' must be between 0 and 100")
    else Option.none
  | .VOLUME =>
    if ¬ pyIsNumber v then some ("Expected number for '" ++ p.name ++ "'")
    else if pyNumVal v < 0 ∨ pyNumVal v > 100 then
      some ("'" ++ p.name ++ "' must be between 0 and 100")
    else Option.none
  | .ENUM =>
    match p.choices with
    | some cs =>
      if cs ≠ [] ∧ ¬ pyInList v cs then
        some ("'" ++ p.name ++ "' must be one of: " ++ String.intercalate ", " cs)
      else Option.none
    | Option.none => Option.none

/-- `Parameter.validate(value)`: returns `(is_valid, error_message or None)`;
an `.error` result models a raised exception (the range comparison of a
string against a numeric bound raises `TypeError` in Python). -/
def Parameter.validate (p : Parameter) (v : PyValue) : Except String (Bool × Option String) :=
  match v with
  | .none =>
    if p.required then .ok (false, some ("Parameter '" ++ p.name ++ "' is required"))
    else .ok (true, Option.none)
  | _ =>
    match checkType p v with
    | some msg => .ok (false, some msg)
    | Option.none => checkRange p v

/-- `Parameter.to_dict()`. -/
structure ParamDict where
  name : String
  type : String
  description : String
  required : Bool
  default : PyValue
  min : Option Int
  max : Option Int
  choices : Option (List String)
  step : Option Int
deriving DecidableEq

/-- `Parameter.to_dict()`: serialization of a parameter. -/
def Parameter.to_dict (p : Parameter) : ParamDict :=
  { name := p.name, type := p.param_type.value, description := p.description,
    required := p.required, default := p.default, min := p.min_value,
    max := p.max_value, choices := p.choices, step := p.step }

/-- `Capability` dataclass. -/
structure Capability where
  name : String
  description : String
  actions : List String := []
  parameters : List Parameter := []
  category : String := "general"
deriving DecidableEq

/-- Values carried in `ActionResult.value` and in `DeviceState.values`:
integers, strings, booleans, the string-keyed info mapping built by
`_get_now_playing`, and the app-id → app-name mapping returned by the Roku
`app list` action. -/
inductive RVal where
  | int (n : Int)
  | str (s : String)
  | bool (b : Bool)
  | dict (entries : List (String × Option String))
  | strMap (entries : List (String × String))
deriving DecidableEq

/-- `ActionResult` dataclass (the diagnostic `raw_response` field, unused by
every property considered here, is omitted). -/
structure ActionResult where
  success : Bool
  value : Option RVal := Option.none
  error : Option String := Option.none
deriving DecidableEq

/-- `VOLUME_CAPABILITY` from `base.py`. -/
def VOLUME_CAPABILITY : Capability :=
  { name := "volume", description := "Audio volume control",
    actions := ["get", "set", "up", "down", "mute", "unmute"],
    parameters :=
      [{ name := "level", param_type := .VOLUME, description := "Volume level (0-100)",
         min_value := some 0, max_value := some 100 },
       { name := "step", param_type := .INTEGER, description := "Volume step for up/down",
         default := .int 5, min_value := some 1, max_value := some 20 }],
    category := "audio" }

/-- `POWER_CAPABILITY` from `base.py`. -/
def POWER_CAPABILITY : Capability :=
  { name := "power", description := "Power control",
    actions := ["get", "on", "off", "toggle"], parameters := [], category := "power" }

/-- `PLAYBACK_CAPABILITY` from `base.py`. -/
def PLAYBACK_CAPABILITY : Capability :=
  { name := "playback", description := "Media playback control",
    actions := ["play", "pause", "stop", "next", "previous"], parameters := [],
    category := "media" }

/-- `INPUT_CAPABILITY` from `base.py`. -/
def INPUT_CAPABILITY : Capability :=
  { name := "input", description := "Input source selection",
    actions := ["get", "set", "list"],
    parameters := [{ name := "source", param_type := .STRING,
                     description := "Input source name" }],
    category := "media" }

/-- One command descriptor emitted by `ControllableDevice.get_all_commands`. -/
structure CommandDescriptor where
  capability : String
  action : String
  command : String
  description : String
  category : String
  parameters : List ParamDict
deriving DecidableEq

/-- `ControllableDevice.get_all_commands`, as a function of the device's
capability list: for each capability and each of its actions, one descriptor
whose `parameters` keep a parameter iff `p.required or action == "set"`. -/
def get_all_commands (caps : List Capability) : List CommandDescriptor :=
  caps.flatMap fun cap => cap.actions.map fun action =>
    { capability := cap.name, action := action,
      command := cap.name ++ "." ++ action,
      description := pyTitle action ++ " " ++ pyLower cap.description,
      category := cap.category,
      parameters :=
        (cap.parameters.filter fun p => p.required || action == "set").map Parameter.to_dict }

/-- The spec's reading of one descriptor of `get_all_commands`: parameters
are the required ones, except that the `"set"` action carries all of the
capability's parameters. -/
def commandFor (cap : Capability) (action : String) : CommandDescriptor :=
  { capability := cap.name, action := action,
    command := cap.name ++ "." ++ action,
    description := pyTitle action ++ " " ++ pyLower cap.description,
    category := cap.category,
    parameters :=
      if action = "set" then cap.parameters.map Parameter.to_dict
      else (cap.parameters.filter (·.required)).map Parameter.to_dict }

/-! ### Discovery engine (`services/control/discovery.py`) -/

/-- `DiscoveredDevice` dataclass (the `raw_data` header mapping is carried as
a list of header pairs). -/
structure DiscoveredDevice where
  ip_address : String
  protocol : String
  device_type : String := "unknown"
  name : String := ""
  manufacturer : Option String := Option.none
  model : Option String := Option.none
  location : Option String := Option.none
  services : List String := []
  raw_data : List (String × String) := []
deriving DecidableEq

/-- Truthiness of the optional `location` URL (`None` and `""` are falsy). -/
def locTruthy : Option String → Bool
  | some s => s != ""
  | Option.none => false

/-- The first-seen-wins IP deduplication loop of `discover_all`, with the set
of already-seen IPs as accumulator. -/
def dedupFirstSeen (seen : List String) : List DiscoveredDevice → List DiscoveredDevice
  | [] => []
  | d :: rest =>
    if seen.contains d.ip_address then dedupFirstSeen seen rest
    else d :: dedupFirstSeen (d.ip_address :: seen) rest

/-- The result-collection step of `discover_all`: append each probe's device
list, skipping probes whose result is an exception. -/
def gatherCollect (results : List (Except String (List DiscoveredDevice))) :
    List DiscoveredDevice :=
  results.foldl (fun acc r => match r with | .ok l => acc ++ l | .error _ => acc) []

/-- `DeviceDiscovery.discover_all`, as a function of the gathered probe
results: collect the non-exception lists, then deduplicate by IP address
keeping the first record seen. -/
def discover_all (results : List (Except String (List DiscoveredDevice))) :
    List DiscoveredDevice :=
  dedupFirstSeen [] (gatherCollect results)

/-- One step of the per-IP deduplication loop of `discover_upnp`
(`by_ip[d.ip_address] = d` guarded by
`not existing or (d.location and not existing.location)`). -/
def upnpDedupStep (by_ip : List (String × DiscoveredDevice)) (d : DiscoveredDevice) :
    List (String × DiscoveredDevice) :=
  match dGet by_ip d.ip_address with
  | Option.none => by_ip ++ [(d.ip_address, d)]
  | some existing =>
    if locTruthy d.location && !locTruthy existing.location then
      dSet by_ip d.ip_address d
    else by_ip

/-- The deduplication performed by `DeviceDiscovery.discover_upnp` on the
records parsed from the SSDP replies. -/
def upnpDedup (devices : List DiscoveredDevice) : List DiscoveredDevice :=
  (devices.foldl upnpDedupStep []).map (·.2)

/-- The claim's pairwise resolution rule for `discover_upnp`: a later record
that has a (truthy) location replaces an earlier record that lacks one;
otherwise the earlier record is kept. -/
def laterWithLocationWins (earlier later : DiscoveredDevice) : DiscoveredDevice :=
  if locTruthy later.location && !locTruthy earlier.location then later else earlier

/-! ### Wi-Fi QR configuration string (`services/qr.py`) -/

/-- The `escape` helper of `generate_wifi_qr_data`: backslash, semicolon,
comma and double quote are each prefixed with a backslash. -/
def wifiEscape (s : String) : String :=
  strReplace (strReplace (strReplace (strReplace s "\\" "\\\\") ";" "\\;") "," "\\,")
    "\"" "\\\""

/-- `generate_wifi_qr_data(ssid, password, security, hidden)`: builds the
`WIFI:T:<sec>;S:<ssid>;P:<password>;H:true;;` configuration string. -/
def generate_wifi_qr_data (ssid : String) (password : Option String)
    (security : String) (hidden : Bool) : String :=
  let sec := pyUpper security
  let sec_type :=
    if strContains sec "WPA" || strContains sec "WPA2" || strContains sec "WPA3" then "WPA"
    else if strContains sec "WEP" then "WEP"
    else if password.isNone || (sec = "NONE" ∨ sec = "OPEN" ∨ sec = "NOPASS") then "nopass"
    else "WPA"
  let parts := ["T:" ++ sec_type, "S:" ++ wifiEscape ssid]
  let parts := parts ++
    (match password with
     | some pw => if pw ≠ "" ∧ sec_type ≠ "nopass" then ["P:" ++ wifiEscape pw] else []
     | Option.none => [])
  let parts := parts ++ (if hidden then ["H:true"] else [])
  "WIFI:" ++ String.intercalate ";" parts ++ ";;"

/-- Inverse of the escaping rule: a backslash quotes the character that
follows it. -/
def unescapeChars : List Char → List Char
  | [] => []
  | '\\' :: c :: rest => c :: unescapeChars rest
  | c :: rest => c :: unescapeChars rest

/-- String-level inverse of the Wi-Fi escaping rule. -/
def wifiUnescape (s : String) : String := String.mk (unescapeChars s.data)

/-! ### UPnP adapter (`services/control/protocols/upnp.py`) -/

/-- One SOAP request as assembled by `UPnPDevice._soap_request`. -/
structure SoapCall where
  control_url : String
  service : String
  action : String
  arguments : List (String × String)
deriving DecidableEq

/-- Parsed content of the UPnP device-description XML, as extracted by
`_parse_device_description` through `ElementTree`: the optional
`friendlyName` / `manufacturer` / `modelName` texts and the
`(serviceType, controlURL)` pairs of the `service` elements in document
order (missing sub-elements read as `""`, matching `findtext(...) or ""`). -/
structure DeviceDescription where
  friendlyName : Option String := Option.none
  manufacturer : Option String := Option.none
  modelName : Option String := Option.none
  services : List (String × String) := []
deriving DecidableEq

/-- Oracle for the UPnP device's network behaviour.  `describe` is the
outcome of fetching and XML-parsing the description document at `location`
(`.error` models a raised exception); `soap` is the wire response to a SOAP
POST; `reachable` is the outcome of the `is_available` probe; `didl` is the
outcome of `ElementTree`-parsing DIDL-Lite metadata into (title, artist). -/
structure UPnPTransport where
  describe : Except String DeviceDescription
  soap : SoapCall → Except String String
  reachable : Bool
  didl : String → Except String (Option String × Option String)

/-- Mutable state of a `UPnPDevice`: identity fields, the `_services` map,
the `_connected` flag, the `DeviceState` (`is_online` plus the `values`
map), the capability list, and a log of the SOAP requests sent so far. -/
structure UPnPDevice where
  name : String
  manufacturer : Option String := Option.none
  model : Option String := Option.none
  ip_address : String := ""
  location : String := ""
  base_url : String := ""
  services : List (String × String) := []
  connected : Bool := false
  is_online : Bool := false
  values : List (String × RVal) := []
  capabilities : List Capability := []
  log : List SoapCall := []
deriving DecidableEq

/-- Append a capability (`ControllableDevice.add_capability`). -/
def addCap (d : UPnPDevice) (c : Capability) : UPnPDevice :=
  { d with capabilities := d.capabilities ++ [c] }

/-- Characters ending the netloc component of a URL. -/
def netlocEnd (c : Char) : Bool := c = '/' ∨ c = '?' ∨ c = '#'

/-- Leading characters of `l` up to (excluding) the first one satisfying
`stop`. -/
def takeUntil (stop : Char → Bool) : List Char → List Char
  | [] => []
  | c :: cs => if stop c then [] else c :: takeUntil stop cs

/-- Split a character list at the first occurrence of the literal `pat`,
returning the parts before and after it. -/
def splitFirstLit (pat : List Char) : List Char → Option (List Char × List Char)
  | [] => (stripLit pat []).map (fun rest => ([], rest))
  | c :: cs =>
    match stripLit pat (c :: cs) with
    | some rest => some ([], rest)
    | Option.none => (splitFirstLit pat cs).map (fun pr => (c :: pr.1, pr.2))

/-- `f"{urlparse(location).scheme}://{urlparse(location).netloc}"` for an
http/https URL. -/
def parseBaseUrl (loc : String) : String :=
  match splitFirstLit "://".data loc.data with
  | some (scheme, rest) => String.mk scheme ++ "://" ++ String.mk (takeUntil netlocEnd rest)
  | Option.none => "://"

/-- The service-storing loop of `_parse_device_description`: relative
control URLs are absolutized against the base URL, and the service is stored
under the suffix key whose name occurs in its `serviceType`. -/
def storeServiceStep (base_url : String) (services : List (String × String))
    (svc : String × String) : List (String × String) :=
  let control_url :=
    if svc.2 ≠ "" ∧ ¬ strStarts svc.2 "http" then
      (if strStarts svc.2 "/" then base_url ++ svc.2 else base_url ++ "/" ++ svc.2)
    else svc.2
  if strContains svc.1 "RenderingControl" then dSet services "RenderingControl" control_url
  else if strContains svc.1 "AVTransport" then dSet services "AVTransport" control_url
  else if strContains svc.1 "ConnectionManager" then dSet services "ConnectionManager" control_url
  else services

/-- The `now_playing` capability built inline by `_setup_capabilities`. -/
def NOW_PLAYING_CAPABILITY : Capability :=
  { name := "now_playing", description := "Current media information",
    actions := ["get"], parameters := [], category := "media" }

/-- `UPnPDevice._setup_capabilities`: volume iff RenderingControl is known,
playback and now_playing iff AVTransport is known, power always.  Note that
it appends to the existing capability list. -/
def upnpSetupCapabilities (d : UPnPDevice) : UPnPDevice :=
  let d := if dHas d.services "RenderingControl" then addCap d VOLUME_CAPABILITY else d
  let d :=
    if dHas d.services "AVTransport" then
      addCap (addCap d PLAYBACK_CAPABILITY) NOW_PLAYING_CAPABILITY
    else d
  addCap d POWER_CAPABILITY

/-- Truthiness of an optional string (`findtext` result). -/
def sTruthy : Option String → Bool
  | some s => s != ""
  | Option.none => false

/-- `UPnPDevice.connect`: fetch and parse the description document, store
the base URL, device info and services, mark connected/online and set up
capabilities; on any exception return `False` with the flags cleared. -/
def upnpConnect (t : UPnPTransport) (d : UPnPDevice) : Bool × UPnPDevice :=
  let base := parseBaseUrl d.location
  let d := { d with base_url := base }
  match t.describe with
  | .error _ => (false, { d with connected := false, is_online := false })
  | .ok desc =>
    let d := if sTruthy desc.friendlyName then { d with name := desc.friendlyName.getD d.name } else d
    let d := if sTruthy desc.manufacturer then { d with manufacturer := desc.manufacturer } else d
    let d := if sTruthy desc.modelName then { d with model := desc.modelName } else d
    let d := { d with services := desc.services.foldl (storeServiceStep base) d.services }
    let d := { d with connected := true, is_online := true }
    (true, upnpSetupCapabilities d)

/-- `UPnPDevice._soap_request`: log the request and return the wire response,
converting an exception into `None` (the internal `try/except`). -/
def soapRequest (t : UPnPTransport) (d : UPnPDevice) (control_url service action : String)
    (args : List (String × String)) : Option String × UPnPDevice :=
  let call : SoapCall := ⟨control_url, service, action, args⟩
  let d := { d with log := d.log ++ [call] }
  match t.soap call with
  | .ok s => (some s, d)
  | .error _ => (Option.none, d)

/-- `UPnPDevice._extract_value`: first match of the regular expression
`<name[^>]*>([^<]*)</name>` (case-insensitive), scanning positions left to
right.  Each sub-pattern is deterministic, so this scan is exactly
`re.search`. -/
def tryMatchAt (nm : List Char) (l : List Char) : Option String :=
  match stripLitCI ('<' :: nm) l with
  | Option.none => Option.none
  | some r1 =>
    match (r1.span (· ≠ '>')).2 with
    | [] => Option.none
    | _ :: r2 =>
      let cap := r2.takeWhile (· ≠ '<')
      let r3 := r2.dropWhile (· ≠ '<')
      match stripLitCI ('<' :: '/' :: (nm ++ ['>'])) r3 with
      | some _ => some (String.mk cap)
      | Option.none => Option.none

/-- Scan of `re.search` starting positions for `_extract_value`. -/
def searchFrom (nm : List Char) : List Char → Option String
  | [] => Option.none
  | c :: cs =>
    match tryMatchAt nm (c :: cs) with
    | some s => some s
    | Option.none => searchFrom nm cs

/-- `UPnPDevice._extract_value(xml_response, element_name)`. -/
def extractValue (xml_response element_name : String) : Option String :=
  searchFrom element_name.data xml_response.data

/-- Numeric content of a state value used in arithmetic (`current + step`);
non-numbers raise `TypeError`. -/
def rvNum : RVal → Except String Rat
  | .int n => .ok (n : Rat)
  | .bool b => .ok (if b then 1 else 0)
  | _ => .error "TypeError"

/-- Numeric content of a keyword-argument value used in arithmetic;
non-numbers raise `TypeError`. -/
def pvNum : PyValue → Except String Rat
  | .int n => .ok (n : Rat)
  | .bool b => .ok (if b then 1 else 0)
  | .float q => .ok q
  | _ => .error "TypeError"

/-- Package a Python number back into a `PyValue` (`int` when the arithmetic
stayed integral, `float` otherwise). -/
def pvOfRat (q : Rat) : PyValue :=
  if q.den = 1 then .int q.num else .float q

/-- The `"get"` branch of `UPnPDevice._execute_volume`: SOAP `GetVolume`,
extraction of `CurrentVolume`, `int(...)` conversion (which may raise) and
storage in the device state. -/
def volumeGet (t : UPnPTransport) (d : UPnPDevice) (control_url : String) :
    Except String ActionResult × UPnPDevice :=
  let (response, d) := soapRequest t d control_url "RenderingControl" "GetVolume"
    [("InstanceID", "0"), ("Channel", "Master")]
  match response with
  | some r =>
    if r = "" then (.ok { success := false, error := some "Failed to get volume" }, d)
    else
      match extractValue r "CurrentVolume" with
      | some volume =>
        match pyToInt (.str volume) with
        | .error e => (.error e, d)
        | .ok n =>
          let d := { d with values := dSet d.values "volume" (.int n) }
          (.ok { success := true, value := some (.int n) }, d)
      | Option.none => (.ok { success := false, error := some "Failed to get volume" }, d)
  | Option.none => (.ok { success := false, error := some "Failed to get volume" }, d)

/-- The `"set"` branch of `UPnPDevice._execute_volume`: clamp
`int(level)` into [0, 100], dispatch SOAP `SetVolume` (its outcome is
ignored), store and return the clamped level. -/
def volumeSet (t : UPnPTransport) (d : UPnPDevice) (control_url : String)
    (kwargs : List (String × PyValue)) : Except String ActionResult × UPnPDevice :=
  match kwGet kwargs "level" .none with
  | .none => (.ok { success := false, error := some "Volume level required" }, d)
  | level =>
    match pyToInt level with
    | .error e => (.error e, d)
    | .ok n =>
      let lvl := max 0 (min 100 n)
      let (_, d) := soapRequest t d control_url "RenderingControl" "SetVolume"
        [("InstanceID", "0"), ("Channel", "Master"), ("DesiredVolume", toString lvl)]
      let d := { d with values := dSet d.values "volume" (.int lvl) }
      (.ok { success := true, value := some (.int lvl) }, d)

/-- The `"up"`/`"down"` branches of `UPnPDevice._execute_volume`: lazily
fetch the current volume when the state lacks it, add or subtract the step
(bounded by 100 or 0), and delegate to the `"set"` branch. -/
def volumeStepBy (t : UPnPTransport) (d : UPnPDevice) (control_url : String)
    (kwargs : List (String × PyValue)) (isUp : Bool) :
    Except String ActionResult × UPnPDevice :=
  let (r, d) :=
    if ¬ dHas d.values "volume" then volumeGet t d control_url
    else (.ok { success := true }, d)
  match r with
  | .error e => (.error e, d)
  | .ok _ =>
    let current := (dGet d.values "volume").getD (.int 50)
    let step := kwGet kwargs "step" (.int 5)
    match rvNum current, pvNum step with
    | .error e, _ => (.error e, d)
    | .ok _, .error e => (.error e, d)
    | .ok c, .ok s =>
      let new_level := if isUp then min 100 (c + s) else max 0 (c - s)
      volumeSet t d control_url [("level", pvOfRat new_level)]

/-- `UPnPDevice._execute_volume`: check the RenderingControl service, then
dispatch on the action name. -/
def executeVolume (t : UPnPTransport) (d : UPnPDevice) (action : String)
    (kwargs : List (String × PyValue)) : Except String ActionResult × UPnPDevice :=
  match dGet d.services "RenderingControl" with
  | Option.none =>
    (.ok { success := false, error := some "RenderingControl service not available" }, d)
  | some control_url =>
    if control_url = "" then
      (.ok { success := false, error := some "RenderingControl service not available" }, d)
    else if action = "get" then volumeGet t d control_url
    else if action = "set" then volumeSet t d control_url kwargs
    else if action = "up" then volumeStepBy t d control_url kwargs true
    else if action = "down" then volumeStepBy t d control_url kwargs false
    else if action = "mute" then
      let (_, d) := soapRequest t d control_url "RenderingControl" "SetMute"
        [("InstanceID", "0"), ("Channel", "Master"), ("DesiredMute", "1")]
      let d := { d with values := dSet d.values "muted" (.bool true) }
      (.ok { success := true, value := some (.bool true) }, d)
    else if action = "unmute" then
      let (_, d) := soapRequest t d control_url "RenderingControl" "SetMute"
        [("InstanceID", "0"), ("Channel", "Master"), ("DesiredMute", "0")]
      let d := { d with values := dSet d.values "muted" (.bool false) }
      (.ok { success := true, value := some (.bool false) }, d)
    else (.ok { success := false, error := some ("Unknown volume action: " ++ action) }, d)

/-- `UPnPDevice._execute_playback`: map the action to its UPnP name and
fire-and-forget a SOAP request on the AVTransport service. -/
def executePlayback (t : UPnPTransport) (d : UPnPDevice) (action : String) :
    Except String ActionResult × UPnPDevice :=
  match dGet d.services "AVTransport" with
  | Option.none =>
    (.ok { success := false, error := some "AVTransport service not available" }, d)
  | some control_url =>
    if control_url = "" then
      (.ok { success := false, error := some "AVTransport service not available" }, d)
    else
      match dGet [("play", "Play"), ("pause", "Pause"), ("stop", "Stop"),
          ("next", "Next"), ("previous", "Previous")] action with
      | Option.none =>
        (.ok { success := false, error := some ("Unknown playback action: " ++ action) }, d)
      | some upnp_action =>
        let args := [("InstanceID", "0")] ++ (if action = "play" then [("Speed", "1")] else [])
        let (_, d) := soapRequest t d control_url "AVTransport" upnp_action args
        (.ok { success := true }, d)

/-- `UPnPDevice._execute_power`: `"get"` is answered from the reachability
probe; every other action is unsupported over UPnP. -/
def executePower (t : UPnPTransport) (d : UPnPDevice) (action : String) :
    Except String ActionResult × UPnPDevice :=
  if action = "get" then
    (.ok { success := true, value := some (.str (if t.reachable then "on" else "off")) }, d)
  else (.ok { success := false, error := some "Power control not supported via UPnP" }, d)

/-- `UPnPDevice._get_now_playing`: SOAP `GetPositionInfo`, extraction of the
position fields, and best-effort DIDL-Lite metadata parsing (its exceptions
are swallowed). -/
def getNowPlaying (t : UPnPTransport) (d : UPnPDevice) :
    Except String ActionResult × UPnPDevice :=
  match dGet d.services "AVTransport" with
  | Option.none =>
    (.ok { success := false, error := some "AVTransport service not available" }, d)
  | some control_url =>
    if control_url = "" then
      (.ok { success := false, error := some "AVTransport service not available" }, d)
    else
      let (response, d) := soapRequest t d control_url "AVTransport" "GetPositionInfo"
        [("InstanceID", "0")]
      match response with
      | some r =>
        if r = "" then
          (.ok { success := false, error := some "Failed to get playback info" }, d)
        else
        let info : List (String × Option String) :=
          [("track", extractValue r "Track"), ("duration", extractValue r "TrackDuration"),
           ("position", extractValue r "RelTime"), ("uri", extractValue r "TrackURI")]
        let info :=
          match extractValue r "TrackMetaData" with
          | some m =>
            if m ≠ "" ∧ m ≠ "NOT_IMPLEMENTED" then
              match t.didl m with
              | .error _ => info
              | .ok (title, artist) =>
                let info := if sTruthy title then dSet info "title" title else info
                if sTruthy artist then dSet info "artist" artist else info
            else info
          | Option.none => info
        (.ok { success := true, value := some (.dict info) }, d)
      | Option.none =>
        (.ok { success := false, error := some "Failed to get playback info" }, d)

/-- The `try` body of `UPnPDevice.execute`: dispatch on the capability name
(an uncaught exception propagates as `.error`). -/
def upnpDispatch (t : UPnPTransport) (d : UPnPDevice) (capability action : String)
    (kwargs : List (String × PyValue)) : Except String ActionResult × UPnPDevice :=
  if capability = "volume" then executeVolume t d action kwargs
  else if capability = "playback" then executePlayback t d action
  else if capability = "power" then executePower t d action
  else if capability = "now_playing" then getNowPlaying t d
  else (.ok { success := false, error := some ("Unknown capability: " ++ capability) }, d)

/-- Convert an uncaught handler exception into an `ActionResult` failure
(the `except Exception` clause of `execute`). -/
def pyCatch {σ : Type} : Except String ActionResult × σ → ActionResult × σ
  | (.ok a, s) => (a, s)
  | (.error e, s) => ({ success := false, error := some e }, s)

/-- `UPnPDevice.execute`: reconnect once when not connected (failing fast
with `"Device not connected"`), then dispatch, catching every exception at
this boundary. -/
def upnpExecute (t : UPnPTransport) (d : UPnPDevice) (capability action : String)
    (kwargs : List (String × PyValue)) : ActionResult × UPnPDevice :=
  if d.connected then pyCatch (upnpDispatch t d capability action kwargs)
  else
    match upnpConnect t d with
    | (false, d') => ({ success := false, error := some "Device not connected" }, d')
    | (true, d') => pyCatch (upnpDispatch t d' capability action kwargs)

/-! ### Roku adapter (`services/control/adapters/roku.py`) -/

/-- One ECP request (`POST /keypress/...` or `POST /launch/...`), with no
body. -/
inductive EcpCall where
  | keypress (key : String)
  | launch (app_id : String)
deriving DecidableEq

/-- `RokuDevice.KEYS`: remote-key table in declaration order. -/
def ROKU_KEYS : List (String × String) :=
  [("home", "Home"), ("back", "Back"), ("select", "Select"), ("left", "Left"),
   ("right", "Right"), ("up", "Up"), ("down", "Down"), ("play", "Play"),
   ("pause", "Pause"), ("rewind", "Rev"), ("forward", "Fwd"), ("info", "Info"),
   ("volume_up", "VolumeUp"), ("volume_down", "VolumeDown"), ("mute", "VolumeMute"),
   ("power", "Power"), ("power_on", "PowerOn"), ("power_off", "PowerOff")]

/-- Oracle for the Roku device's network behaviour.  `deviceInfo` is the
parsed `/query/device-info` document (`user-device-name`,
`friendly-device-name`, `model-name`); `appsQuery` is the parsed
`/query/apps` document as `(id, text)` pairs in document order; `ecp` is the
outcome of a keypress/launch POST; `reachable` is the `is_available`
probe. -/
structure RokuTransport where
  deviceInfo : Except String (Option String × Option String × Option String)
  appsQuery : Except String (List (String × String))
  ecp : EcpCall → Except String Unit
  reachable : Bool

/-- Mutable state of a `RokuDevice`: identity, the `_connected` flag, the
`DeviceState`, the capability list, the `_apps` map and a log of the ECP
requests sent so far. -/
structure RokuDevice where
  name : String
  model : Option String := Option.none
  ip_address : String := ""
  connected : Bool := false
  is_online : Bool := false
  values : List (String × RVal) := []
  capabilities : List Capability := []
  apps : List (String × String) := []
  log : List EcpCall := []
deriving DecidableEq

/-- Append a capability to a Roku device. -/
def addCapR (d : RokuDevice) (c : Capability) : RokuDevice :=
  { d with capabilities := d.capabilities ++ [c] }

/-- `RokuDevice._setup_capabilities`: the six static capabilities, with the
app launcher's `choices` limited to the first ten known app names (or `None`
when no apps are known).  Appends to the existing capability list. -/
def rokuSetupCapabilities (d : RokuDevice) : RokuDevice :=
  let d := addCapR d POWER_CAPABILITY
  let d := addCapR d PLAYBACK_CAPABILITY
  let d := addCapR d
    { name := "volume", description := "Volume control",
      actions := ["up", "down", "mute"], parameters := [], category := "audio" }
  let d := addCapR d
    { name := "navigate", description := "Navigation controls",
      actions := ["up", "down", "left", "right", "select", "back", "home"],
      parameters := [], category := "navigation" }
  let app_names := d.apps.map (·.2)
  let d := addCapR d
    { name := "app", description := "App launcher", actions := ["list", "launch"],
      parameters := [{ name := "name", param_type := .STRING,
                       description := "App name to launch",
                       choices := if app_names ≠ [] then some (app_names.take 10)
                                  else Option.none }],
      category := "apps" }
  addCapR d
    { name := "key", description := "Send remote key press", actions := ["press"],
      parameters := [{ name := "key", param_type := .ENUM, description := "Key to press",
                       choices := some (ROKU_KEYS.map (·.1)) }],
      category := "remote" }

/-- First truthy string of the `findtext(...) or findtext(...) or self.name`
chain. -/
def firstTruthy (a b : Option String) (dflt : String) : String :=
  match a with
  | some s => if s ≠ "" then s else (match b with
      | some u => if u ≠ "" then u else dflt
      | Option.none => dflt)
  | Option.none => (match b with
      | some u => if u ≠ "" then u else dflt
      | Option.none => dflt)

/-- `RokuDevice._fetch_apps`: merge the parsed `(id, name)` entries with
non-empty id and name into the `_apps` map; exceptions are swallowed. -/
def rokuFetchApps (t : RokuTransport) (d : RokuDevice) : RokuDevice :=
  match t.appsQuery with
  | .error _ => d
  | .ok entries =>
    { d with apps :=
        entries.foldl (fun m p => if p.1 ≠ "" ∧ p.2 ≠ "" then dSet m p.1 p.2 else m) d.apps }

/-- `RokuDevice.connect`: fetch device info and apps, mark connected/online,
and set up capabilities; on an exception return `False` with the flags
cleared. -/
def rokuConnect (t : RokuTransport) (d : RokuDevice) : Bool × RokuDevice :=
  match t.deviceInfo with
  | .error _ => (false, { d with connected := false, is_online := false })
  | .ok (udn, fdn, mdl) =>
    let d := { d with name := firstTruthy udn fdn d.name }
    let d := { d with model := mdl }
    let d := rokuFetchApps t d
    let d := { d with connected := true, is_online := true }
    (true, rokuSetupCapabilities d)

/-- `RokuDevice._send_keypress`: log and POST the keypress, converting an
exception into a failure result (never raising). -/
def sendKeypress (t : RokuTransport) (d : RokuDevice) (key : String) :
    Except String ActionResult × RokuDevice :=
  let d := { d with log := d.log ++ [.keypress key] }
  match t.ecp (.keypress key) with
  | .ok _ => (.ok { success := true }, d)
  | .error e => (.ok { success := false, error := some e }, d)

/-- `RokuDevice._launch_app`: log and POST the launch, converting an
exception into a failure result (never raising). -/
def launchApp (t : RokuTransport) (d : RokuDevice) (app_id : String) :
    Except String ActionResult × RokuDevice :=
  let d := { d with log := d.log ++ [.launch app_id] }
  match t.ecp (.launch app_id) with
  | .ok _ => (.ok { success := true }, d)
  | .error e => (.ok { success := false, error := some e }, d)

/-- `RokuDevice._execute_power`. -/
def rokuPower (t : RokuTransport) (d : RokuDevice) (action : String) :
    Except String ActionResult × RokuDevice :=
  if action = "get" then
    (.ok { success := true, value := some (.str (if t.reachable then "on" else "off")) }, d)
  else if action = "on" then sendKeypress t d "PowerOn"
  else if action = "off" then sendKeypress t d "PowerOff"
  else if action = "toggle" then sendKeypress t d "Power"
  else (.ok { success := false, error := some ("Unknown power action: " ++ action) }, d)

/-- `RokuDevice._execute_playback`. -/
def rokuPlayback (t : RokuTransport) (d : RokuDevice) (action : String) :
    Except String ActionResult × RokuDevice :=
  match dGet [("play", "Play"), ("pause", "Play"), ("stop", "Back"),
      ("next", "Fwd"), ("previous", "Rev")] action with
  | some key => sendKeypress t d key
  | Option.none =>
    (.ok { success := false, error := some ("Unknown playback action: " ++ action) }, d)

/-- `RokuDevice._execute_volume`. -/
def rokuVolume (t : RokuTransport) (d : RokuDevice) (action : String) :
    Except String ActionResult × RokuDevice :=
  match dGet [("up", "VolumeUp"), ("down", "VolumeDown"), ("mute", "VolumeMute")] action with
  | some key => sendKeypress t d key
  | Option.none =>
    (.ok { success := false, error := some ("Unknown volume action: " ++ action) }, d)

/-- `RokuDevice._execute_navigate`. -/
def rokuNavigate (t : RokuTransport) (d : RokuDevice) (action : String) :
    Except String ActionResult × RokuDevice :=
  match dGet [("up", "Up"), ("down", "Down"), ("left", "Left"), ("right", "Right"),
      ("select", "Select"), ("back", "Back"), ("home", "Home")] action with
  | some key => sendKeypress t d key
  | Option.none =>
    (.ok { success := false, error := some ("Unknown navigate action: " ++ action) }, d)

/-- `kwargs.get("name", "").lower()`: lower-casing a non-string raises
`AttributeError`. -/
def pyLowerVal : PyValue → Except String String
  | .str s => .ok (pyLower s)
  | _ => .error "AttributeError"

/-- `RokuDevice._execute_app`: `"list"` returns the app map; `"launch"`
picks the first app whose lower-cased name contains the (lower-cased)
requested name as a substring. -/
def rokuApp (t : RokuTransport) (d : RokuDevice) (action : String)
    (kwargs : List (String × PyValue)) : Except String ActionResult × RokuDevice :=
  if action = "list" then (.ok { success := true, value := some (.strMap d.apps) }, d)
  else if action = "launch" then
    match pyLowerVal (kwGet kwargs "name" (.str "")) with
    | .error e => (.error e, d)
    | .ok nm =>
      let app_id := (d.apps.find? fun p => strContains (pyLower p.2) nm).map (·.1)
      match app_id with
      | Option.none => (.ok { success := false, error := some ("App not found: " ++ nm) }, d)
      | some aid =>
        if aid = "" then (.ok { success := false, error := some ("App not found: " ++ nm) }, d)
        else launchApp t d aid
  else (.ok { success := false, error := some ("Unknown app action: " ++ action) }, d)

/-- `RokuDevice._execute_key`: a falsy key is rejected, an unknown key name
is rejected, otherwise the mapped key is pressed.  Note that the action name
is never consulted. -/
def rokuKey (t : RokuTransport) (d : RokuDevice) (kwargs : List (String × PyValue)) :
    Except String ActionResult × RokuDevice :=
  let key := kwGet kwargs "key" .none
  if ¬ pyTruthy key then (.ok { success := false, error := some "Key name required" }, d)
  else
    match (match key with | .str s => dGet ROKU_KEYS s | _ => Option.none) with
    | some roku_key => sendKeypress t d roku_key
    | Option.none =>
      (.ok { success := false, error := some ("Unknown key: " ++ pyStr key) }, d)

/-- The `try` body of `RokuDevice.execute`: dispatch on the capability name
(an uncaught exception propagates as `.error`). -/
def rokuDispatch (t : RokuTransport) (d : RokuDevice) (capability action : String)
    (kwargs : List (String × PyValue)) : Except String ActionResult × RokuDevice :=
  if capability = "power" then rokuPower t d action
  else if capability = "playback" then rokuPlayback t d action
  else if capability = "volume" then rokuVolume t d action
  else if capability = "navigate" then rokuNavigate t d action
  else if capability = "app" then rokuApp t d action kwargs
  else if capability = "key" then rokuKey t d kwargs
  else (.ok { success := false, error := some ("Unknown capability: " ++ capability) }, d)

/-- `RokuDevice.execute`: reconnect once when not connected (failing fast
with `"Device not connected"`), then dispatch, catching every exception at
this boundary. -/
def rokuExecute (t : RokuTransport) (d : RokuDevice) (capability action : String)
    (kwargs : List (String × PyValue)) : ActionResult × RokuDevice :=
  if d.connected then pyCatch (rokuDispatch t d capability action kwargs)
  else
    match rokuConnect t d with
    | (false, d') => ({ success := false, error := some "Device not connected" }, d')
    | (true, d') => pyCatch (rokuDispatch t d' capability action kwargs)

/-! ### Concrete fixtures used by the theorems below -/

/-- Description document of a speaker advertising RenderingControl and
AVTransport services with relative control URLs. -/
def sonosDescription : DeviceDescription :=
  { friendlyName := some "Living Room", manufacturer := some "Sonos",
    modelName := some "One",
    services :=
      [("urn:schemas-upnp-org:service:RenderingControl:1",
        "/MediaRenderer/RenderingControl/Control"),
       ("urn:schemas-upnp-org:service:AVTransport:1",
        "/MediaRenderer/AVTransport/Control")] }

/-- Transport for a reachable UPnP speaker whose description fetch always
succeeds with `sonosDescription`. -/
def upnpDescribeTransport : UPnPTransport :=
  { describe := .ok sonosDescription, soap := fun _ => .error "unreachable",
    reachable := true, didl := fun _ => .error "unreachable" }

/-- A freshly constructed `UPnPDevice` (state as after `__init__`). -/
def upnpFreshDevice : UPnPDevice :=
  { name := "UPnP Device", ip_address := "192.168.1.50",
    location := "http://192.168.1.50:1400/xml/device_description.xml" }

/-- Transport for a reachable Roku with two installed apps whose ECP calls
always succeed. -/
def rokuInfoTransport : RokuTransport :=
  { deviceInfo := .ok (some "Bedroom TV", some "Roku TV", some "43UN7300"),
    appsQuery := .ok [("12", "Netflix"), ("837", "YouTube")],
    ecp := fun _ => .ok (), reachable := true }

/-- A freshly constructed `RokuDevice`. -/
def rokuFreshDevice : RokuDevice := { name := "Roku", ip_address := "10.0.0.5" }

/-- A connected `RokuDevice`, as left by one successful `connect()`. -/
def rokuConnectedDevice : RokuDevice := (rokuConnect rokuInfoTransport rokuFreshDevice).2

/-- A canned SOAP `GetVolume` response body carrying `CurrentVolume` 42. -/
def cannedGetVolumeResponse : String :=
  "<s:Envelope><s:Body><u:GetVolumeResponse xmlns:u=\"urn:schemas-upnp-org:service:RenderingControl:1\"><CurrentVolume>42</CurrentVolume></u:GetVolumeResponse></s:Body></s:Envelope>"

/-- Transport whose every SOAP POST answers with
`cannedGetVolumeResponse`. -/
def upnpSoapTransport : UPnPTransport :=
  { describe := .error "unreachable", soap := fun _ => .ok cannedGetVolumeResponse,
    reachable := true, didl := fun _ => .error "unreachable" }

/-- A connected UPnP speaker with a RenderingControl control URL. -/
def upnpConnectedSpeaker : UPnPDevice :=
  { name := "Speaker", ip_address := "10.0.0.9", connected := true, is_online := true,
    services := [("RenderingControl", "http://10.0.0.9:9197/upnp/control/rc")] }

/-! ### Theorems -/

/-- C1.  The spec requires `connect()` to be idempotent with respect to the
capability set.  The code is not: `_setup_capabilities` appends to the
existing `_capabilities` list on every successful connect, so a second
`connect()` on the same reachable device (same description document both
times) doubles the capability list for both adapters.  This theorem
evaluates both adapters at that failing input: the first connect succeeds
with the expected capability lists, and the second connect leaves each
device with its capability list concatenated with itself — different from
the list after the first call. -/
theorem connect_twice_duplicates_capabilities :
    (upnpConnect upnpDescribeTransport upnpFreshDevice).1 = true
    ∧ (upnpConnect upnpDescribeTransport upnpFreshDevice).2.capabilities
        = [VOLUME_CAPABILITY, PLAYBACK_CAPABILITY, NOW_PLAYING_CAPABILITY, POWER_CAPABILITY]
    ∧ (upnpConnect upnpDescribeTransport
          (upnpConnect upnpDescribeTransport upnpFreshDevice).2).1 = true
    ∧ (upnpConnect upnpDescribeTransport
          (upnpConnect upnpDescribeTransport upnpFreshDevice).2).2.capabilities
        = (upnpConnect upnpDescribeTransport upnpFreshDevice).2.capabilities
            ++ (upnpConnect upnpDescribeTransport upnpFreshDevice).2.capabilities
    ∧ (upnpConnect upnpDescribeTransport
          (upnpConnect upnpDescribeTransport upnpFreshDevice).2).2.capabilities
        ≠ (upnpConnect upnpDescribeTransport upnpFreshDevice).2.capabilities
    ∧ (rokuConnect rokuInfoTransport rokuFreshDevice).1 = true
    ∧ (rokuConnect rokuInfoTransport rokuConnectedDevice).1 = true
    ∧ (rokuConnect rokuInfoTransport rokuConnectedDevice).2.capabilities
        = rokuConnectedDevice.capabilities ++ rokuConnectedDevice.capabilities
    ∧ (rokuConnect rokuInfoTransport rokuConnectedDevice).2.capabilities
        ≠ rokuConnectedDevice.capabilities := by
  decide

/-- C6.  Against a transport whose SOAP response body contains
`<CurrentVolume>42</CurrentVolume>`, `execute("volume", "get")` on a
connected UPnP device with a RenderingControl service extracts the integer
42, stores it under the `"volume"` key of the device state, and returns a
successful `ActionResult` with value 42. -/
theorem upnp_volume_get_soap_roundtrip :
    extractValue cannedGetVolumeResponse "CurrentVolume" = some "42"
    ∧ (upnpExecute upnpSoapTransport upnpConnectedSpeaker "volume" "get" []).1
        = { success := true, value := some (.int 42) }
    ∧ dGet (upnpExecute upnpSoapTransport upnpConnectedSpeaker "volume" "get" []).2.values
        "volume" = some (.int 42) := by
  decide

/-- C7.  For SSID `My;Network` and password `pass;word` the generated Wi-Fi
configuration string escapes both semicolons as `\;` (the S and P fields are
the escaped texts below), and unescaping those two fields with the inverse
of the same rule restores the original literal values. -/
theorem wifi_qr_escape_roundtrip :
    generate_wifi_qr_data "My;Network" (some "pass;word") "WPA" false
      = "WIFI:T:WPA;S:" ++ "My\\;Network" ++ ";P:" ++ "pass\\;word" ++ ";;"
    ∧ wifiEscape "My;Network" = "My\\;Network"
    ∧ wifiEscape "pass;word" = "pass\\;word"
    ∧ wifiUnescape "My\\;Network" = "My;Network"
    ∧ wifiUnescape "pass\\;word" = "pass;word" := by
  decide

/-- A numeric value can always be compared against an integer bound. -/
theorem pyGtInt_of_number (v : PyValue) (m : Int) (hv : pyIsNumber v = true) :
    ∃ r, pyGtInt v m = .ok r := by
  cases v <;> simp_all [pyIsNumber, pyGtInt]

/-- A numeric value can always be compared against an integer bound. -/
theorem pyLtInt_of_number (v : PyValue) (m : Int) (hv : pyIsNumber v = true) :
    ∃ r, pyLtInt v m = .ok r := by
  cases v <;> simp_all [pyIsNumber, pyLtInt]

/-- The `max_value` check never raises on a numeric value, and its verdict
carries a message exactly when it fails. -/
theorem checkMax_of_number (p : Parameter) (v : PyValue) (hv : pyIsNumber v = true) :
    ∃ b m, checkMax p v = .ok (b, m) ∧ (b = true ↔ m = Option.none) := by
  cases hmax : p.max_value with
  | none => exact ⟨true, Option.none, by simp [checkMax, hmax], by simp⟩
  | some bound =>
    obtain ⟨r, hr⟩ := pyGtInt_of_number v bound hv
    cases r with
    | true =>
      exact ⟨false, some ("'" ++ p.name ++ "' must be <= " ++ toString bound),
        by simp [checkMax, hmax, hr], by simp⟩
    | false => exact ⟨true, Option.none, by simp [checkMax, hmax, hr], by simp⟩

/-- The whole range check never raises on a numeric value. -/
theorem checkRange_of_number (p : Parameter) (v : PyValue) (hv : pyIsNumber v = true) :
    ∃ b m, checkRange p v = .ok (b, m) ∧ (b = true ↔ m = Option.none) := by
  cases hmin : p.min_value with
  | none =>
    obtain ⟨b, m, hbm, hiff⟩ := checkMax_of_number p v hv
    exact ⟨b, m, by simp [checkRange, hmin, hbm], hiff⟩
  | some bound =>
    obtain ⟨r, hr⟩ := pyLtInt_of_number v bound hv
    cases r with
    | true =>
      exact ⟨false, some ("'" ++ p.name ++ "' must be >= " ++ toString bound),
        by simp [checkRange, hmin, hr], by simp⟩
    | false =>
      obtain ⟨b, m, hbm, hiff⟩ := checkMax_of_number p v hv
      exact ⟨b, m, by simp [checkRange, hmin, hr, hbm], hiff⟩

/-- The range check reduces to a trivial success when both bounds are
unset. -/
theorem checkRange_no_bounds (p : Parameter) (v : PyValue)
    (hmin : p.min_value = Option.none) (hmax : p.max_value = Option.none) :
    checkRange p v = .ok (true, Option.none) := by
  simp [checkRange, checkMax, hmin, hmax]

/-- C2 counterexample.  `Parameter.validate` is not total: for a
`STRING`-typed parameter carrying a numeric `min_value` bound, a string
value passes the type check and is then ordered against the numeric bound,
which raises `TypeError` in Python (modelled as an `.error` result) instead
of returning a `(bool, message)` pair. -/
theorem validate_totality_counterexample :
    Parameter.validate { name := "s", param_type := .STRING, min_value := some 0 }
      (.str "abc") = .error "TypeError" := rfl

/-- C2 (amended).  `Parameter.validate` never raises and returns a
`(bool, error-message-or-None)` pair — with a message exactly when the value
is invalid, reporting the first violated rule — for every parameter and
candidate value such that a string value is only presented when no numeric
`min_value`/`max_value` bound is set; additionally, a `None` value is
resolved by the required-flag rule alone. -/
theorem validate_total_amended :
    (∀ (p : Parameter) (v : PyValue),
      (pyIsStr v = true → p.min_value = Option.none ∧ p.max_value = Option.none) →
      ∃ b m, p.validate v = .ok (b, m) ∧ (b = true ↔ m = Option.none))
    ∧ (∀ p : Parameter, p.validate .none =
        if p.required then .ok (false, some ("Parameter '" ++ p.name ++ "' is required"))
        else .ok (true, Option.none)) := by
  constructor
  · intro p v hstr
    cases v with
    | none =>
      by_cases hr : p.required <;> simp [Parameter.validate, hr]
    | str s =>
      obtain ⟨hmin, hmax⟩ := hstr rfl
      cases hct : checkType p (.str s) with
      | some msg => exact ⟨false, some msg, by simp [Parameter.validate, hct], by simp⟩
      | none =>
        refine ⟨true, Option.none, ?_, by simp⟩
        simp [Parameter.validate, hct, checkRange_no_bounds p _ hmin hmax]
    | int n =>
      cases hct : checkType p (.int n) with
      | some msg => exact ⟨false, some msg, by simp [Parameter.validate, hct], by simp⟩
      | none =>
        obtain ⟨b, m, hbm, hiff⟩ := checkRange_of_number p (.int n) rfl
        exact ⟨b, m, by simp [Parameter.validate, hct, hbm], hiff⟩
    | bool w =>
      cases hct : checkType p (.bool w) with
      | some msg => exact ⟨false, some msg, by simp [Parameter.validate, hct], by simp⟩
      | none =>
        obtain ⟨b, m, hbm, hiff⟩ := checkRange_of_number p (.bool w) rfl
        exact ⟨b, m, by simp [Parameter.validate, hct, hbm], hiff⟩
    | float q =>
      cases hct : checkType p (.float q) with
      | some msg => exact ⟨false, some msg, by simp [Parameter.validate, hct], by simp⟩
      | none =>
        obtain ⟨b, m, hbm, hiff⟩ := checkRange_of_number p (.float q) rfl
        exact ⟨b, m, by simp [Parameter.validate, hct, hbm], hiff⟩
  · intro p
    by_cases hr : p.required <;> simp [Parameter.validate, hr]

/-- C2 witness.  The amended totality theorem applied to the `VOLUME`
parameter `level` (bounds 0 and 100) and the out-of-range integer 150: the
hypothesis holds since the value is not a string, and `validate` returns a
pair. -/
theorem validate_total_amended_witness :
    ∃ b m,
      Parameter.validate
        { name := "level", param_type := .VOLUME, min_value := some 0,
          max_value := some 100 } (.int 150) = .ok (b, m)
      ∧ (b = true ↔ m = Option.none) :=
  validate_total_amended.1
    { name := "level", param_type := .VOLUME, min_value := some 0, max_value := some 100 }
    (.int 150) (fun h => by cases h)

/-- Per-IP content of the first-seen-wins loop, for any set of already-seen
IPs: nothing if the IP was already seen, otherwise the first matching record
of the remaining input. -/
theorem filter_dedupFirstSeen (l : List DiscoveredDevice) :
    ∀ (seen : List String) (ip : String),
      (dedupFirstSeen seen l).filter (fun d => d.ip_address == ip)
        = if ip ∈ seen then []
          else (l.find? (fun d => d.ip_address == ip)).toList := by
  induction l with
  | nil => intro seen ip; by_cases h : ip ∈ seen <;> simp [dedupFirstSeen, h]
  | cons d rest ih =>
    intro seen ip
    by_cases hseen : d.ip_address ∈ seen
    · rw [dedupFirstSeen, if_pos (by simpa using hseen), ih seen ip]
      by_cases hd : d.ip_address = ip
      · have hip : ip ∈ seen := hd ▸ hseen
        simp [hip]
      · have hbeq : (d.ip_address == ip) = false := by simp [hd]
        rw [List.find?_cons_of_neg _ (by simp [hbeq])]
    · rw [dedupFirstSeen, if_neg (by simpa using hseen)]
      by_cases hd : d.ip_address = ip
      · subst hd
        rw [List.filter_cons_of_pos (by simp),
          ih (d.ip_address :: seen) d.ip_address,
          if_pos (List.mem_cons_self _ _), if_neg hseen,
          List.find?_cons_of_pos _ (by simp)]
        rfl
      · have hbeq : (d.ip_address == ip) = false := by simp [hd]
        rw [List.filter_cons_of_neg (by simp [hbeq]),
          ih (d.ip_address :: seen) ip,
          List.find?_cons_of_neg _ (by simp [hbeq])]
        by_cases hip : ip ∈ seen
        · simp [hip]
        · simp [hip, Ne.symm hd]

/-- C4.  `discover_all` deduplicates the gathered probe results by IP with
first-seen-wins: for every record in the collected results, the output
contains exactly one entry with its IP address, namely the first record with
that IP in iteration order of the gathered results. -/
theorem discover_all_dedup_first_seen :
    ∀ (results : List (Except String (List DiscoveredDevice))) (x : DiscoveredDevice),
      x ∈ gatherCollect results →
      ∃ first,
        (gatherCollect results).find? (fun d => d.ip_address == x.ip_address) = some first
        ∧ (discover_all results).filter (fun d => d.ip_address == x.ip_address) = [first] := by
  intro results x hx
  have hfind : ((gatherCollect results).find?
      (fun d => d.ip_address == x.ip_address)).isSome = true := by
    rw [List.find?_isSome]
    exact ⟨x, hx, by simp⟩
  obtain ⟨first, hfirst⟩ := Option.isSome_iff_exists.mp hfind
  refine ⟨first, hfirst, ?_⟩
  have h := filter_dedupFirstSeen (gatherCollect results) [] x.ip_address
  rw [List.not_mem_nil x.ip_address |> if_neg, hfirst] at h
  exact h

/-- The record with the given IP (if any) of a singleton-extended
dictionary. -/
theorem dGet_append_single {α : Type} (m : List (String × α)) (k : String) (v : α)
    (ip : String) :
    dGet (m ++ [(k, v)]) ip
      = match dGet m ip with
        | some x => some x
        | Option.none => if k == ip then some v else Option.none := by
  induction m with
  | nil =>
    by_cases h : k = ip
    · have hb : (k == ip) = true := by simp [h]
      simp [dGet, List.find?, hb]
    · have hb : (k == ip) = false := by simp [h]
      simp [dGet, List.find?, hb]
  | cons p rest ih =>
    by_cases hp : p.1 = ip
    · have hb : (p.1 == ip) = true := by simp [hp]
      simp [dGet, List.find?, hb]
    · have hb : (p.1 == ip) = false := by simp [hp]
      simpa [dGet, List.find?, hb] using ih

/-- Unfolding of a dictionary lookup over a cons cell. -/
theorem dGet_cons {α : Type} (x : String × α) (l : List (String × α)) (ip : String) :
    dGet (x :: l) ip = if x.1 == ip then some x.2 else dGet l ip := by
  cases hb : x.1 == ip <;> simp [dGet, List.find?, hb]

/-- Updating one key of a dictionary leaves lookups of other keys
unchanged. -/
theorem dGet_map_set_ne {α : Type} (m : List (String × α)) (k : String) (v : α)
    (ip : String) (hne : k ≠ ip) :
    dGet (m.map (fun p => if p.1 == k then (k, v) else p)) ip = dGet m ip := by
  induction m with
  | nil => rfl
  | cons p rest ih =>
    simp only [List.map_cons]
    by_cases hp : p.1 = k
    · have h2 : (k == ip) = false := by simp [hne]
      have hfp : (if p.1 == k then (k, v) else p) = (k, v) := by simp [hp]
      rw [hfp, dGet_cons, dGet_cons, if_neg (by simp [h2]), if_neg (by simp [hp, hne])]
      exact ih
    · have h1 : (p.1 == k) = false := by simp [hp]
      have hfp : (if p.1 == k then (k, v) else p) = p := by simp [h1]
      by_cases hq : p.1 = ip
      · rw [hfp, dGet_cons, dGet_cons, if_pos (by simp [hq]), if_pos (by simp [hq])]
      · rw [hfp, dGet_cons, dGet_cons, if_neg (by simp [hq]), if_neg (by simp [hq])]
        exact ih

/-- Updating a present key makes its lookup return the new value. -/
theorem dGet_map_set_eq {α : Type} (m : List (String × α)) (k : String) (v : α)
    (h : m.any (fun p => p.1 == k) = true) :
    dGet (m.map (fun p => if p.1 == k then (k, v) else p)) k = some v := by
  induction m with
  | nil => simp at h
  | cons p rest ih =>
    simp only [List.map_cons]
    by_cases hp : p.1 = k
    · have hfp : (if p.1 == k then (k, v) else p) = (k, v) := by simp [hp]
      rw [hfp, dGet_cons, if_pos (by simp)]
    · have h1 : (p.1 == k) = false := by simp [hp]
      have hfp : (if p.1 == k then (k, v) else p) = p := by simp [h1]
      simp only [List.any_cons, h1, Bool.false_or] at h
      rw [hfp, dGet_cons, if_neg (by simp [h1])]
      exact ih h

/-- A successful lookup implies key membership. -/
theorem dHas_of_dGet {α : Type} (m : List (String × α)) (k : String) (e : α)
    (h : dGet m k = some e) : m.any (fun p => p.1 == k) = true := by
  induction m with
  | nil => simp [dGet] at h
  | cons p rest ih =>
    rw [dGet_cons] at h
    by_cases hp : p.1 = k
    · simp [hp]
    · have h1 : (p.1 == k) = false := by simp [hp]
      rw [if_neg (by simp [h1])] at h
      simp only [List.any_cons, h1, Bool.false_or]
      exact ih h

/-- Effect of one `discover_upnp` dedup step on the per-IP lookup. -/
theorem dGet_upnpDedupStep (m : List (String × DiscoveredDevice)) (d : DiscoveredDevice)
    (ip : String) :
    dGet (upnpDedupStep m d) ip
      = if d.ip_address == ip then
          some (match dGet m d.ip_address with
                | some e => laterWithLocationWins e d
                | Option.none => d)
        else dGet m ip := by
  cases hE : dGet m d.ip_address with
  | none =>
    have hstep : upnpDedupStep m d = m ++ [(d.ip_address, d)] := by
      unfold upnpDedupStep; rw [hE]
    rw [hstep, dGet_append_single]
    by_cases hip : d.ip_address = ip
    · subst hip
      simp [hE]
    · have h1 : (d.ip_address == ip) = false := by simp [hip]
      cases hm : dGet m ip <;> simp [hm, h1]
  | some e =>
    have hstep : upnpDedupStep m d
        = if locTruthy d.location && !locTruthy e.location then
            dSet m d.ip_address d
          else m := by
      unfold upnpDedupStep; rw [hE]
    rw [hstep]
    by_cases hcond : (locTruthy d.location && !locTruthy e.location) = true
    · rw [if_pos hcond]
      have hset : dSet m d.ip_address d
          = m.map (fun p => if p.1 == d.ip_address then (d.ip_address, d) else p) := by
        unfold dSet; rw [if_pos (dHas_of_dGet m d.ip_address e hE)]
      rw [hset]
      by_cases hip : d.ip_address = ip
      · subst hip
        rw [dGet_map_set_eq m d.ip_address d (dHas_of_dGet m d.ip_address e hE)]
        simp [hE, laterWithLocationWins, hcond]
      · rw [dGet_map_set_ne m d.ip_address d ip hip]
        have h1 : (d.ip_address == ip) = false := by simp [hip]
        simp [h1]
    · rw [if_neg hcond]
      by_cases hip : d.ip_address = ip
      · subst hip
        simp [hE, laterWithLocationWins, hcond]
      · have h1 : (d.ip_address == ip) = false := by simp [hip]
        simp [h1]

/-- Per-IP content of the `discover_upnp` dedup fold, relative to an
arbitrary starting dictionary: the per-IP records are resolved pairwise by
`laterWithLocationWins`. -/
theorem upnpDedup_find (l : List DiscoveredDevice) :
    ∀ (m : List (String × DiscoveredDevice)) (ip : String),
      dGet (l.foldl upnpDedupStep m) ip
        = (l.filter (fun d => d.ip_address == ip)).foldl
            (fun acc d => some (match acc with
              | some e => laterWithLocationWins e d
              | Option.none => d))
            (dGet m ip) := by
  induction l with
  | nil => intro m ip; rfl
  | cons d rest ih =>
    intro m ip
    rw [List.foldl_cons, ih]
    by_cases hip : d.ip_address = ip
    · have h1 : (d.ip_address == ip) = true := by simp [hip]
      rw [List.filter_cons_of_pos (by simpa using h1), List.foldl_cons,
        dGet_upnpDedupStep, if_pos h1, hip]
    · have h1 : (d.ip_address == ip) = false := by simp [hip]
      rw [List.filter_cons_of_neg (by simp [hip]), dGet_upnpDedupStep, if_neg (by simp [hip])]

/-- A record with IP 10.0.0.7 and no location URL. -/
def ssdpNoLocationRecord : DiscoveredDevice :=
  { ip_address := "10.0.0.7", protocol := "upnp", name := "Bose" }

/-- A later record for the same IP carrying a location URL. -/
def ssdpLocationRecord : DiscoveredDevice :=
  { ip_address := "10.0.0.7", protocol := "upnp", name := "Bose",
    location := some "http://10.0.0.7:8091/desc.xml" }

/-- C10.  Within `discover_upnp`, duplicate records for one IP are resolved
pairwise by `laterWithLocationWins` — a later record with a location URL
replaces an earlier one lacking it, otherwise the earlier record is kept —
which differs from the first-seen-wins rule of `discover_all` (witnessed on
a concrete pair: `upnpDedup` keeps the later record with location where the
first-seen rule keeps the earlier one). -/
theorem upnp_dedup_prefers_location :
    (∀ (devices : List DiscoveredDevice) (ip : String),
      dGet (devices.foldl upnpDedupStep []) ip
        = (devices.filter (fun d => d.ip_address == ip)).foldl
            (fun acc d => some (match acc with
              | some e => laterWithLocationWins e d
              | Option.none => d))
            Option.none)
    ∧ upnpDedup [ssdpNoLocationRecord, ssdpLocationRecord] = [ssdpLocationRecord]
    ∧ dedupFirstSeen [] [ssdpNoLocationRecord, ssdpLocationRecord] = [ssdpNoLocationRecord]
    ∧ ssdpLocationRecord ≠ ssdpNoLocationRecord := by
  refine ⟨?_, by decide, by decide, by decide⟩
  intro devices ip
  simpa using upnpDedup_find devices [] ip

/-- C4 witness.  The dedup theorem applied to two probe results (with a
failed probe in between) sharing the IP 10.0.0.7: the record membership
hypothesis holds for the second record, and the output keeps only the first
record. -/
theorem discover_all_dedup_first_seen_witness :
    ∃ first,
      (gatherCollect [.ok [ssdpNoLocationRecord], .error "probe failed",
          .ok [ssdpLocationRecord]]).find?
        (fun d => d.ip_address == ssdpLocationRecord.ip_address) = some first
      ∧ (discover_all [.ok [ssdpNoLocationRecord], .error "probe failed",
          .ok [ssdpLocationRecord]]).filter
        (fun d => d.ip_address == ssdpLocationRecord.ip_address) = [first] :=
  discover_all_dedup_first_seen
    [.ok [ssdpNoLocationRecord], .error "probe failed", .ok [ssdpLocationRecord]]
    ssdpLocationRecord (by decide)

/-- The parameter filter of `get_all_commands` keeps required parameters,
except that the `"set"` action keeps everything. -/
theorem filter_required_or_set (l : List Parameter) (action : String) :
    l.filter (fun p => p.required || action == "set")
      = if action = "set" then l else l.filter (·.required) := by
  by_cases h : action = "set"
  · subst h
    simp
  · have hb : (action == "set") = false := by simp [h]
    simp [hb, h]

/-- C5.  `get_all_commands` is the derived view over the capability list:
one descriptor per capability × declared action, with
`command = "<capability>.<action>"`, the capability's category, and the
required parameters only — except that the `"set"` action carries all of the
capability's parameters. -/
theorem get_all_commands_derived_view :
    (∀ caps : List Capability,
      get_all_commands caps
        = caps.flatMap fun cap => cap.actions.map fun action => commandFor cap action)
    ∧ (∀ (cap : Capability) (action : String),
        (commandFor cap action).capability = cap.name
        ∧ (commandFor cap action).command = cap.name ++ "." ++ action
        ∧ (commandFor cap action).category = cap.category
        ∧ (commandFor cap action).parameters
            = (if action = "set" then cap.parameters.map Parameter.to_dict
               else (cap.parameters.filter (·.required)).map Parameter.to_dict)) := by
  constructor
  · intro caps
    simp only [get_all_commands, commandFor, filter_required_or_set, apply_ite]
  · intro cap action
    exact ⟨rfl, rfl, rfl, rfl⟩

/-- C9.  `execute("volume", "set", level=L)` on a connected UPnP device with
a RenderingControl service never rejects an out-of-range integer level: it
clamps `L` into [0, 100], dispatches a SOAP `SetVolume` request carrying the
clamped value, stores it in the device state under `"volume"`, and returns a
successful result with the clamped value. -/
theorem upnp_volume_set_clamps :
    ∀ (t : UPnPTransport) (d : UPnPDevice) (L : Int) (url : String),
      d.connected = true →
      dGet d.services "RenderingControl" = some url →
      url ≠ "" →
      upnpExecute t d "volume" "set" [("level", .int L)]
        = ({ success := true, value := some (.int (max 0 (min 100 L))) },
           { d with
             values := dSet d.values "volume" (.int (max 0 (min 100 L))),
             log := d.log ++ [⟨url, "RenderingControl", "SetVolume",
               [("InstanceID", "0"), ("Channel", "Master"),
                ("DesiredVolume", toString (max 0 (min 100 L)))]⟩] }) := by
  intro t d L url hconn hurl hne
  simp only [upnpExecute, if_pos hconn, upnpDispatch, executeVolume, hurl]
  rw [if_neg hne]
  simp [volumeSet, kwGet, dGet, List.find?, pyToInt, soapRequest, pyCatch]
  cases t.soap ⟨url, "RenderingControl", "SetVolume",
    [("InstanceID", "0"), ("Channel", "Master"),
     ("DesiredVolume", toString (max 0 (min 100 L)))]⟩ <;> simp [pyCatch]

/-- C9 witness.  The clamp theorem applied to the connected speaker fixture
and the out-of-range level 150: the result is success with value 100 and the
dispatched `DesiredVolume` is `"100"`. -/
theorem upnp_volume_set_clamps_witness :
    upnpExecute upnpSoapTransport upnpConnectedSpeaker "volume" "set" [("level", .int 150)]
      = ({ success := true, value := some (.int 100) },
         { upnpConnectedSpeaker with
           values := dSet upnpConnectedSpeaker.values "volume" (.int 100),
           log := upnpConnectedSpeaker.log ++
             [⟨"http://10.0.0.9:9197/upnp/control/rc", "RenderingControl", "SetVolume",
               [("InstanceID", "0"), ("Channel", "Master"), ("DesiredVolume", "100")]⟩] }) :=
  upnp_volume_set_clamps upnpSoapTransport upnpConnectedSpeaker 150
    "http://10.0.0.9:9197/upnp/control/rc" rfl rfl (by decide)

/-- The empty needle is a substring of every string (Python `"" in s`). -/
theorem strContains_empty_needle (s : String) : strContains s "" = true := by
  rcases s with ⟨data⟩
  cases data <;> simp [strContains, containsFrom, stripLit]

/-- C8.  On a connected Roku with at least one fetched app (non-empty id),
`execute("app", "launch")` with no `name` argument (or `name=""`) does not
fail: the empty string substring-matches every app name, so the first app of
the app map is selected, its launch is POSTed, and the call succeeds
whenever the launch HTTP call does. -/
theorem roku_app_launch_empty_name :
    ∀ (t : RokuTransport) (d : RokuDevice) (kw : List (String × PyValue))
      (aid aname : String) (rest : List (String × String)),
      d.connected = true →
      d.apps = (aid, aname) :: rest →
      aid ≠ "" →
      kwGet kw "name" (.str "") = .str "" →
      t.ecp (.launch aid) = .ok () →
      rokuExecute t d "app" "launch" kw
        = ({ success := true }, { d with log := d.log ++ [.launch aid] }) := by
  intro t d kw aid aname rest hconn happs hne hkw hecp
  have hsub : strContains (pyLower aname) "" = true := strContains_empty_needle _
  have hlow : pyLower "" = "" := rfl
  simp [rokuExecute, if_pos hconn, rokuDispatch, rokuApp, pyLowerVal, hkw, happs, hlow,
    hsub, hne, launchApp, hecp, pyCatch]

/-- C8 witness.  The launch theorem applied to the connected Roku fixture
(apps Netflix and YouTube, all ECP calls succeeding) with empty kwargs: the
first app (id 12) is launched and the call succeeds. -/
theorem roku_app_launch_empty_name_witness :
    rokuExecute rokuInfoTransport rokuConnectedDevice "app" "launch" []
      = ({ success := true },
         { rokuConnectedDevice with log := rokuConnectedDevice.log ++ [.launch "12"] }) :=
  roku_app_launch_empty_name rokuInfoTransport rokuConnectedDevice [] "12" "Netflix"
    [("837", "YouTube")] rfl (by decide) (by decide) rfl rfl

/-- C3 counterexample.  An unknown action does not always yield
`success=false`: the Roku `key` handler never consults the action name, so
`execute("key", "frobnicate", key="home")` — where `"frobnicate"` is not
among the declared actions `["press"]` of the `key` capability — presses the
key and succeeds. -/
theorem execute_unknown_action_counterexample :
    ((rokuConnectedDevice.capabilities.find? (fun c => c.name == "key")).map
        Capability.actions) = some ["press"]
    ∧ (rokuExecute rokuInfoTransport rokuConnectedDevice "key" "frobnicate"
        [("key", .str "home")]).1 = { success := true } := by
  decide

/-- C3 (amended).  `execute` is a hard exception boundary, with one caveat
on unknown actions: for both adapters (modelled as total functions into
`ActionResult × state`, so no exception escapes), (1, 2) an unknown
capability yields `success=false` with the descriptive
`"Unknown capability: ..."` error and an unchanged device; (3–10) an
undeclared action yields `success=false` with a descriptive error for every
capability whose handler dispatches on the action name (UPnP volume,
playback and power; Roku power, playback, volume, navigate and app) — the
UPnP `now_playing` and Roku `key` handlers ignore the action name (see the
counterexample); (11, 12) any exception raised inside a handler is converted
at the boundary into `ActionResult(success=false, error=str(e))` with the
handler's state mutations retained. -/
theorem execute_exception_boundary_amended :
    (∀ t d cap act kw, d.connected = true →
      cap ∉ (["volume", "playback", "power", "now_playing"] : List String) →
      upnpExecute t d cap act kw
        = ({ success := false, error := some ("Unknown capability: " ++ cap) }, d))
    ∧ (∀ t d cap act kw, d.connected = true →
      cap ∉ (["power", "playback", "volume", "navigate", "app", "key"] : List String) →
      rokuExecute t d cap act kw
        = ({ success := false, error := some ("Unknown capability: " ++ cap) }, d))
    ∧ (∀ t d act kw, d.connected = true →
      act ∉ (["get", "set", "up", "down", "mute", "unmute"] : List String) →
      (upnpExecute t d "volume" act kw).1.success = false
      ∧ (upnpExecute t d "volume" act kw).1.error.isSome = true)
    ∧ (∀ t d act kw, d.connected = true →
      act ∉ (["play", "pause", "stop", "next", "previous"] : List String) →
      (upnpExecute t d "playback" act kw).1.success = false
      ∧ (upnpExecute t d "playback" act kw).1.error.isSome = true)
    ∧ (∀ t d act kw, d.connected = true → act ≠ "get" →
      upnpExecute t d "power" act kw
        = ({ success := false, error := some "Power control not supported via UPnP" }, d))
    ∧ (∀ t d act kw, d.connected = true →
      act ∉ (["get", "on", "off", "toggle"] : List String) →
      rokuExecute t d "power" act kw
        = ({ success := false, error := some ("Unknown power action: " ++ act) }, d))
    ∧ (∀ t d act kw, d.connected = true →
      act ∉ (["play", "pause", "stop", "next", "previous"] : List String) →
      rokuExecute t d "playback" act kw
        = ({ success := false, error := some ("Unknown playback action: " ++ act) }, d))
    ∧ (∀ t d act kw, d.connected = true →
      act ∉ (["up", "down", "mute"] : List String) →
      rokuExecute t d "volume" act kw
        = ({ success := false, error := some ("Unknown volume action: " ++ act) }, d))
    ∧ (∀ t d act kw, d.connected = true →
      act ∉ (["up", "down", "left", "right", "select", "back", "home"] : List String) →
      rokuExecute t d "navigate" act kw
        = ({ success := false, error := some ("Unknown navigate action: " ++ act) }, d))
    ∧ (∀ t d act kw, d.connected = true →
      act ∉ (["list", "launch"] : List String) →
      rokuExecute t d "app" act kw
        = ({ success := false, error := some ("Unknown app action: " ++ act) }, d))
    ∧ (∀ t d cap act kw e, d.connected = true →
      (upnpDispatch t d cap act kw).1 = .error e →
      upnpExecute t d cap act kw
        = ({ success := false, error := some e }, (upnpDispatch t d cap act kw).2))
    ∧ (∀ t d cap act kw e, d.connected = true →
      (rokuDispatch t d cap act kw).1 = .error e →
      rokuExecute t d cap act kw
        = ({ success := false, error := some e }, (rokuDispatch t d cap act kw).2)) := by
  refine ⟨?_, ?_, ?_, ?_, ?_, ?_, ?_, ?_, ?_, ?_, ?_, ?_⟩
  · intro t d cap act kw hconn hcap
    have h1 : cap ≠ "volume" := fun h => hcap (by simp [h])
    have h2 : cap ≠ "playback" := fun h => hcap (by simp [h])
    have h3 : cap ≠ "power" := fun h => hcap (by simp [h])
    have h4 : cap ≠ "now_playing" := fun h => hcap (by simp [h])
    simp [upnpExecute, if_pos hconn, upnpDispatch, h1, h2, h3, h4, pyCatch]
  · intro t d cap act kw hconn hcap
    have h1 : cap ≠ "power" := fun h => hcap (by simp [h])
    have h2 : cap ≠ "playback" := fun h => hcap (by simp [h])
    have h3 : cap ≠ "volume" := fun h => hcap (by simp [h])
    have h4 : cap ≠ "navigate" := fun h => hcap (by simp [h])
    have h5 : cap ≠ "app" := fun h => hcap (by simp [h])
    have h6 : cap ≠ "key" := fun h => hcap (by simp [h])
    simp [rokuExecute, if_pos hconn, rokuDispatch, h1, h2, h3, h4, h5, h6, pyCatch]
  · intro t d act kw hconn hact
    have h1 : act ≠ "get" := fun h => hact (by simp [h])
    have h2 : act ≠ "set" := fun h => hact (by simp [h])
    have h3 : act ≠ "up" := fun h => hact (by simp [h])
    have h4 : act ≠ "down" := fun h => hact (by simp [h])
    have h5 : act ≠ "mute" := fun h => hact (by simp [h])
    have h6 : act ≠ "unmute" := fun h => hact (by simp [h])
    cases hcu : dGet d.services "RenderingControl" with
    | none =>
      simp [upnpExecute, if_pos hconn, upnpDispatch, executeVolume, hcu, pyCatch]
    | some url =>
      by_cases hu : url = ""
      · simp [upnpExecute, if_pos hconn, upnpDispatch, executeVolume, hcu, hu, pyCatch]
      · simp [upnpExecute, if_pos hconn, upnpDispatch, executeVolume, hcu, hu,
          h1, h2, h3, h4, h5, h6, pyCatch]
  · intro t d act kw hconn hact
    have h1 : ("play" == act) = false := by
      simp; exact fun h => hact (by simp [h.symm])
    have h2 : ("pause" == act) = false := by
      simp; exact fun h => hact (by simp [h.symm])
    have h3 : ("stop" == act) = false := by
      simp; exact fun h => hact (by simp [h.symm])
    have h4 : ("next" == act) = false := by
      simp; exact fun h => hact (by simp [h.symm])
    have h5 : ("previous" == act) = false := by
      simp; exact fun h => hact (by simp [h.symm])
    have hmap : dGet [("play", "Play"), ("pause", "Pause"), ("stop", "Stop"),
        ("next", "Next"), ("previous", "Previous")] act = Option.none := by
      simp [dGet, List.find?, h1, h2, h3, h4, h5]
    cases hcu : dGet d.services "AVTransport" with
    | none =>
      simp [upnpExecute, if_pos hconn, upnpDispatch, executePlayback, hcu, pyCatch]
    | some url =>
      by_cases hu : url = ""
      · simp [upnpExecute, if_pos hconn, upnpDispatch, executePlayback, hcu, hu, pyCatch]
      · simp [upnpExecute, if_pos hconn, upnpDispatch, executePlayback, hcu, hu, hmap,
          pyCatch]
  · intro t d act kw hconn hact
    simp [upnpExecute, if_pos hconn, upnpDispatch, executePower, hact, pyCatch]
  · intro t d act kw hconn hact
    have h1 : act ≠ "get" := fun h => hact (by simp [h])
    have h2 : act ≠ "on" := fun h => hact (by simp [h])
    have h3 : act ≠ "off" := fun h => hact (by simp [h])
    have h4 : act ≠ "toggle" := fun h => hact (by simp [h])
    simp [rokuExecute, if_pos hconn, rokuDispatch, rokuPower, h1, h2, h3, h4, pyCatch]
  · intro t d act kw hconn hact
    have h1 : ("play" == act) = false := by
      simp; exact fun h => hact (by simp [h.symm])
    have h2 : ("pause" == act) = false := by
      simp; exact fun h => hact (by simp [h.symm])
    have h3 : ("stop" == act) = false := by
      simp; exact fun h => hact (by simp [h.symm])
    have h4 : ("next" == act) = false := by
      simp; exact fun h => hact (by simp [h.symm])
    have h5 : ("previous" == act) = false := by
      simp; exact fun h => hact (by simp [h.symm])
    simp [rokuExecute, if_pos hconn, rokuDispatch, rokuPlayback, dGet, List.find?,
      h1, h2, h3, h4, h5, pyCatch]
  · intro t d act kw hconn hact
    have h1 : ("up" == act) = false := by
      simp; exact fun h => hact (by simp [h.symm])
    have h2 : ("down" == act) = false := by
      simp; exact fun h => hact (by simp [h.symm])
    have h3 : ("mute" == act) = false := by
      simp; exact fun h => hact (by simp [h.symm])
    simp [rokuExecute, if_pos hconn, rokuDispatch, rokuVolume, dGet, List.find?,
      h1, h2, h3, pyCatch]
  · intro t d act kw hconn hact
    have h1 : ("up" == act) = false := by
      simp; exact fun h => hact (by simp [h.symm])
    have h2 : ("down" == act) = false := by
      simp; exact fun h => hact (by simp [h.symm])
    have h3 : ("left" == act) = false := by
      simp; exact fun h => hact (by simp [h.symm])
    have h4 : ("right" == act) = false := by
      simp; exact fun h => hact (by simp [h.symm])
    have h5 : ("select" == act) = false := by
      simp; exact fun h => hact (by simp [h.symm])
    have h6 : ("back" == act) = false := by
      simp; exact fun h => hact (by simp [h.symm])
    have h7 : ("home" == act) = false := by
      simp; exact fun h => hact (by simp [h.symm])
    simp [rokuExecute, if_pos hconn, rokuDispatch, rokuNavigate, dGet, List.find?,
      h1, h2, h3, h4, h5, h6, h7, pyCatch]
  · intro t d act kw hconn hact
    have h1 : act ≠ "list" := fun h => hact (by simp [h])
    have h2 : act ≠ "launch" := fun h => hact (by simp [h])
    simp [rokuExecute, if_pos hconn, rokuDispatch, rokuApp, h1, h2, pyCatch]
  · intro t d cap act kw e hconn herr
    simp only [upnpExecute, if_pos hconn]
    rcases hD : upnpDispatch t d cap act kw with ⟨r, d2⟩
    rw [hD] at herr
    simp only at herr
    subst herr
    simp [pyCatch, hD]
  · intro t d cap act kw e hconn herr
    simp only [rokuExecute, if_pos hconn]
    rcases hD : rokuDispatch t d cap act kw with ⟨r, d2⟩
    rw [hD] at herr
    simp only at herr
    subst herr
    simp [pyCatch, hD]

/-- C3 witness.  Every conjunct of the amended boundary theorem applied at a
concrete input on the connected fixtures: unknown capabilities, undeclared
actions per dispatching capability, and one raising handler per adapter
(`int("abc")` in the UPnP volume setter, `.lower()` on an integer app name
in the Roku launcher). -/
theorem execute_exception_boundary_amended_witness :
    upnpExecute upnpSoapTransport upnpConnectedSpeaker "bogus" "x" []
      = ({ success := false, error := some ("Unknown capability: " ++ "bogus") },
         upnpConnectedSpeaker)
    ∧ rokuExecute rokuInfoTransport rokuConnectedDevice "bogus" "x" []
      = ({ success := false, error := some ("Unknown capability: " ++ "bogus") },
         rokuConnectedDevice)
    ∧ ((upnpExecute upnpSoapTransport upnpConnectedSpeaker "volume" "frobnicate"
          []).1.success = false
       ∧ (upnpExecute upnpSoapTransport upnpConnectedSpeaker "volume" "frobnicate"
          []).1.error.isSome = true)
    ∧ ((upnpExecute upnpSoapTransport upnpConnectedSpeaker "playback" "frobnicate"
          []).1.success = false
       ∧ (upnpExecute upnpSoapTransport upnpConnectedSpeaker "playback" "frobnicate"
          []).1.error.isSome = true)
    ∧ upnpExecute upnpSoapTransport upnpConnectedSpeaker "power" "on" []
      = ({ success := false, error := some "Power control not supported via UPnP" },
         upnpConnectedSpeaker)
    ∧ rokuExecute rokuInfoTransport rokuConnectedDevice "power" "frobnicate" []
      = ({ success := false, error := some ("Unknown power action: " ++ "frobnicate") },
         rokuConnectedDevice)
    ∧ rokuExecute rokuInfoTransport rokuConnectedDevice "playback" "frobnicate" []
      = ({ success := false, error := some ("Unknown playback action: " ++ "frobnicate") },
         rokuConnectedDevice)
    ∧ rokuExecute rokuInfoTransport rokuConnectedDevice "volume" "set" []
      = ({ success := false, error := some ("Unknown volume action: " ++ "set") },
         rokuConnectedDevice)
    ∧ rokuExecute rokuInfoTransport rokuConnectedDevice "navigate" "frobnicate" []
      = ({ success := false, error := some ("Unknown navigate action: " ++ "frobnicate") },
         rokuConnectedDevice)
    ∧ rokuExecute rokuInfoTransport rokuConnectedDevice "app" "frobnicate" []
      = ({ success := false, error := some ("Unknown app action: " ++ "frobnicate") },
         rokuConnectedDevice)
    ∧ upnpExecute upnpSoapTransport upnpConnectedSpeaker "volume" "set"
        [("level", .str "abc")]
      = ({ success := false, error := some "ValueError: invalid literal for int: abc" },
         (upnpDispatch upnpSoapTransport upnpConnectedSpeaker "volume" "set"
           [("level", .str "abc")]).2)
    ∧ rokuExecute rokuInfoTransport rokuConnectedDevice "app" "launch"
        [("name", .int 0)]
      = ({ success := false, error := some "AttributeError" },
         (rokuDispatch rokuInfoTransport rokuConnectedDevice "app" "launch"
           [("name", .int 0)]).2) := by
  obtain ⟨hA, hB, hC, hD, hE, hF, hG, hH, hI, hJ, hK, hL⟩ :=
    execute_exception_boundary_amended
  exact ⟨hA _ _ "bogus" "x" [] rfl (by decide),
    hB _ _ "bogus" "x" [] rfl (by decide),
    hC _ _ "frobnicate" [] rfl (by decide),
    hD _ _ "frobnicate" [] rfl (by decide),
    hE _ _ "on" [] rfl (by decide),
    hF _ _ "frobnicate" [] rfl (by decide),
    hG _ _ "frobnicate" [] rfl (by decide),
    hH _ _ "set" [] rfl (by decide),
    hI _ _ "frobnicate" [] rfl (by decide),
    hJ _ _ "frobnicate" [] rfl (by decide),
    hK _ _ "volume" "set" [("level", .str "abc")] _ rfl rfl,
    hL _ _ "app" "launch" [("name", .int 0)] _ rfl rfl⟩

end Lantern














